import Mathlib

/-!
Verification of the GitHub-issue-resolution agent pipeline.

The embedding models the pipeline driver `ResolveIssueAgent._run_async_impl`
(src/agent/agent.py) and the `.env` loader in `main` (src/agent/main.py).
Session state is an association list of string keys to string values (later
writes are prepended and shadow earlier bindings, matching dictionary update).
Each pipeline stage is an opaque external call: when run it either completes,
having written some key/value pairs into session state, or raises an exception
with a message (possibly after partial writes).  The driver itself is the
deterministic function of the initial state and the four stage outcomes.
-/

namespace ResolveIssue

/-- Session state: string-keyed mapping, modelled as an association list.
Later writes are prepended, so `stateGet` sees the newest binding. -/
abbrev State := List (String × String)

/-- Dictionary lookup, as in `ctx.session.state.get(key)`. -/
def stateGet (s : State) (k : String) : Option String := s.lookup k

/-- Python falsiness of `state.get(key)`: `None` (absent key) and the empty
string are falsy; every non-empty string is truthy. -/
def pyFalsy : Option String → Bool
  | none => true
  | some s => s == ""

/-- Occurrence of `pat` as a contiguous sublist, by scanning every suffix. -/
def listContainsSub (pat : List Char) : List Char → Bool
  | [] => pat.isEmpty
  | c :: rest => pat.isPrefixOf (c :: rest) || listContainsSub pat rest

/-- Python substring containment `pat in s`. -/
def hasSubstr (s pat : String) : Bool := listContainsSub pat.toList s.toList

/-- Python `s.startswith(pre)`. -/
def pyStartsWith (s pre : String) : Bool := pre.toList.isPrefixOf s.toList

/-- The result envelope: the fixed-shape JSON record the driver emits. -/
structure Envelope where
  success : Bool
  error : Option String
  issue_details : Option String
  analysis : Option String
  implementation_summary : Option String
  pull_request : Option String
deriving Repr, DecidableEq

/-- Envelope for a missing issue URL (agent.py lines 38-45). -/
def noIssueUrlResponse : Envelope :=
  { success := false, error := some "No issue_url provided",
    issue_details := none, analysis := none,
    implementation_summary := none, pull_request := none }

/-- Envelope for a malformed issue URL (agent.py lines 51-58). -/
def invalidFormatResponse : Envelope :=
  { success := false, error := some "Invalid issue_url format",
    issue_details := none, analysis := none,
    implementation_summary := none, pull_request := none }

/-- Envelope when stage 1 left no `issue_details` (agent.py lines 81-88). -/
def noIssueDetailsResponse : Envelope :=
  { success := false, error := some "No issue_details found",
    issue_details := none, analysis := none,
    implementation_summary := none, pull_request := none }

/-- Envelope when stage 2 left no `analysis` (agent.py lines 121-128). -/
def noAnalysisResponse (s : State) : Envelope :=
  { success := false, error := some "No analysis found",
    issue_details := stateGet s "issue_details", analysis := none,
    implementation_summary := none, pull_request := none }

/-- Envelope when stage 4 left no `pr_output` (agent.py lines 180-187). -/
def prFailedResponse (s : State) : Envelope :=
  { success := false, error := some "PR creation failed",
    issue_details := stateGet s "issue_details",
    analysis := stateGet s "analysis",
    implementation_summary := some "Changes were implemented but PR creation failed",
    pull_request := none }

/-- Success envelope (agent.py lines 192-199). -/
def successResponse (s : State) : Envelope :=
  { success := true, error := none,
    issue_details := stateGet s "issue_details",
    analysis := stateGet s "analysis",
    implementation_summary := some "Successfully implemented code changes based on issue analysis",
    pull_request := stateGet s "pr_output" }

/-- Envelope built by the exception handler (agent.py lines 204-211). -/
def unexpectedErrorResponse (s : State) (msg : String) : Envelope :=
  { success := false, error := some ("Unexpected error: " ++ msg),
    issue_details := stateGet s "issue_details",
    analysis := stateGet s "analysis",
    implementation_summary := stateGet s "implementation_summary",
    pull_request := stateGet s "pr_output" }

/-- Outcome of running one opaque stage: either it completes after writing
some key/value pairs into session state, or it raises an exception with a
message, possibly after partial writes. -/
inductive StageResult where
  | ok (writes : State)
  | exn (writes : State) (msg : String)
deriving Repr, DecidableEq

/-- The four stage outcomes of one run, in pipeline order. -/
structure RunBehavior where
  fetch : StageResult
  analyze : StageResult
  implement : StageResult
  pr : StageResult
deriving Repr, DecidableEq

/-- Observable output of the driver: which `LlmAgent` stages were invoked,
in order, and the result envelopes the driver itself yielded. -/
structure RunOutput where
  stagesRun : List String
  emitted : List Envelope
deriving Repr, DecidableEq

/-- The pipeline driver `ResolveIssueAgent._run_async_impl` (agent.py lines
30-212), as a function of the initial session state and the four stage
outcomes.  Mirrors the source control flow: URL validation, then the four
stages with a falsiness check on the output key after stages 1, 2 and 4,
with the surrounding `try`/`except` turning a raised exception into the
`unexpectedErrorResponse` envelope over the state at that point. -/
def run_async_impl (init : State) (b : RunBehavior) : RunOutput :=
  let issue_url := (stateGet init "issue_url").getD ""
  if issue_url == "" then
    ⟨[], [noIssueUrlResponse]⟩
  else if !(pyStartsWith issue_url "https://github.com/" && hasSubstr issue_url "/issues/") then
    ⟨[], [invalidFormatResponse]⟩
  else
    match b.fetch with
    | .exn w msg => ⟨["fetch_issue"], [unexpectedErrorResponse (w ++ init) msg]⟩
    | .ok w1 =>
      let s1 := w1 ++ init
      if pyFalsy (stateGet s1 "issue_details") then
        ⟨["fetch_issue"], [noIssueDetailsResponse]⟩
      else
        match b.analyze with
        | .exn w msg =>
          ⟨["fetch_issue", "analyze_issue"], [unexpectedErrorResponse (w ++ s1) msg]⟩
        | .ok w2 =>
          let s2 := w2 ++ s1
          if pyFalsy (stateGet s2 "analysis") then
            ⟨["fetch_issue", "analyze_issue"], [noAnalysisResponse s2]⟩
          else
            match b.implement with
            | .exn w msg =>
              ⟨["fetch_issue", "analyze_issue", "implement_fix"],
               [unexpectedErrorResponse (w ++ s2) msg]⟩
            | .ok w3 =>
              let s3 := w3 ++ s2
              match b.pr with
              | .exn w msg =>
                ⟨["fetch_issue", "analyze_issue", "implement_fix", "create_pr"],
                 [unexpectedErrorResponse (w ++ s3) msg]⟩
              | .ok w4 =>
                let s4 := w4 ++ s3
                if pyFalsy (stateGet s4 "pr_output") then
                  ⟨["fetch_issue", "analyze_issue", "implement_fix", "create_pr"],
                   [prFailedResponse s4]⟩
                else
                  ⟨["fetch_issue", "analyze_issue", "implement_fix", "create_pr"],
                   [successResponse s4]⟩

/-- Python `str.strip()`: drop leading and trailing whitespace. -/
def pyStrip (s : String) : String :=
  String.mk (((s.toList.dropWhile Char.isWhitespace).reverse.dropWhile
      Char.isWhitespace).reverse)

/-- Python `line.split("=", 1)` when `"="` occurs in `line`: the part before
the first `'='` and everything after it. -/
def splitFirstEq (s : String) : String × String :=
  let k := s.toList.takeWhile (fun c => c != '=')
  (String.mk k, String.mk (s.toList.drop (k.length + 1)))

/-- The process environment, modelled as an association list with
dictionary-update semantics. -/
abbrev Env := List (String × String)

/-- Lookup in the process environment. -/
def envGet (env : Env) (k : String) : Option String := env.lookup k

/-- Assignment `os.environ[key] = value`: replace an existing binding for
`key`, or append a new one. -/
def envSet (env : Env) (k v : String) : Env :=
  if env.any (fun p => p.1 == k) then
    env.map (fun p => if p.1 == k then (p.1, v) else p)
  else
    env ++ [(k, v)]

/-- One iteration of the `.env` loader loop (main.py lines 23-27): strip the
line; skip it if it is empty, starts with `"#"`, or has no `"="`; otherwise
split on the first `"="` and assign into the environment. -/
def processEnvLine (env : Env) (raw : String) : Env :=
  let line := pyStrip raw
  if !(line == "") && !(pyStartsWith line "#") && hasSubstr line "=" then
    let kv := splitFirstEq line
    envSet env kv.1 kv.2
  else
    env

/-- The whole `.env` loader loop over the file's lines. -/
def loadEnvFile (env : Env) (lines : List String) : Env :=
  lines.foldl processEnvLine env

/-- An option on which `pyFalsy` is `false` holds a value. -/
theorem pyFalsy_false_isSome {o : Option String} (h : pyFalsy o = false) :
    o.isSome = true := by
  cases o with
  | none => simp [pyFalsy] at h
  | some s => rfl

/-- A key bound in the suffix of an association-list append is still bound in
the whole list. -/
theorem lookup_append_isSome (l₁ l₂ : State) (k : String)
    (h : (l₂.lookup k).isSome = true) : ((l₁ ++ l₂).lookup k).isSome = true := by
  induction l₁ with
  | nil => simpa using h
  | cons p l ih =>
    rcases p with ⟨a, v⟩
    by_cases hk : (k == a) = true
    · simp [List.lookup, hk]
    · simp only [List.cons_append, List.lookup, Bool.not_eq_true] at *
      simp [hk, ih]

/-- C7: on every execution path of the driver (input-validation failure, any
missing-key short-circuit, unexpected exception, or full success), exactly one
result envelope is emitted, and it is the driver's entire emitted output for
that run. -/
theorem driver_emits_exactly_one_envelope (init : State) (b : RunBehavior) :
    ∃ e, (run_async_impl init b).emitted = [e] := by
  rcases b with ⟨f, a, i, p⟩
  cases f <;> cases a <;> cases i <;> cases p <;>
    simp only [run_async_impl] <;> split_ifs <;> exact ⟨_, rfl⟩

/-- C4: for every issue URL that is empty, does not start with
`"https://github.com/"`, or does not contain `"/issues/"`, the run terminates
before invoking any stage, emitting an envelope with `success := false`, all
result fields other than `error`/`success` null, and the error message
`"No issue_url provided"` exactly when the URL is empty. -/
theorem invalid_url_short_circuit (init : State) (b : RunBehavior)
    (h : (stateGet init "issue_url").getD "" = "" ∨
      pyStartsWith ((stateGet init "issue_url").getD "") "https://github.com/" = false ∨
      hasSubstr ((stateGet init "issue_url").getD "") "/issues/" = false) :
    (run_async_impl init b).stagesRun = [] ∧
    ∃ e, (run_async_impl init b).emitted = [e] ∧ e.success = false ∧
      e.issue_details = none ∧ e.analysis = none ∧
      e.implementation_summary = none ∧ e.pull_request = none ∧
      (e.error = some "No issue_url provided" ↔ (stateGet init "issue_url").getD "" = "") := by
  by_cases hu : (stateGet init "issue_url").getD "" = ""
  · have hb : ((stateGet init "issue_url").getD "" == "") = true := by simp [hu]
    refine ⟨?_, noIssueUrlResponse, ?_, ?_, ?_, ?_, ?_, ?_, ?_⟩ <;>
      simp [run_async_impl, hb, noIssueUrlResponse, hu]
  · have hne : ((stateGet init "issue_url").getD "" == "") = false := by simp [hu]
    have hcond : (pyStartsWith ((stateGet init "issue_url").getD "") "https://github.com/" &&
        hasSubstr ((stateGet init "issue_url").getD "") "/issues/") = false := by
      rcases h with h | h | h
      · exact absurd h hu
      · simp [h]
      · simp [h]
    refine ⟨?_, invalidFormatResponse, ?_, ?_, ?_, ?_, ?_, ?_, ?_⟩ <;>
      simp [run_async_impl, hne, hcond, invalidFormatResponse, hu]

/-- Witness for C4 at the concrete URL `"http://github.com/x/issues/1"`. -/
theorem invalid_url_short_circuit_witness :
    (run_async_impl [("issue_url", "http://github.com/x/issues/1")]
      ⟨.ok [], .ok [], .ok [], .ok []⟩).stagesRun = [] ∧
    ∃ e, (run_async_impl [("issue_url", "http://github.com/x/issues/1")]
      ⟨.ok [], .ok [], .ok [], .ok []⟩).emitted = [e] ∧ e.success = false ∧
      e.issue_details = none ∧ e.analysis = none ∧
      e.implementation_summary = none ∧ e.pull_request = none ∧
      (e.error = some "No issue_url provided" ↔
        (stateGet [("issue_url", "http://github.com/x/issues/1")] "issue_url").getD "" = "") :=
  invalid_url_short_circuit [("issue_url", "http://github.com/x/issues/1")]
    ⟨.ok [], .ok [], .ok [], .ok []⟩ (by decide)

/-- C8: URL validation accepts any non-empty string that starts with
`"https://github.com/"` and contains `"/issues/"` anywhere as a substring, and
invokes stage 1 (`fetch_issue`) for it; no further structure is checked. -/
theorem url_validation_is_permissive (init : State) (b : RunBehavior)
    (hne : ((stateGet init "issue_url").getD "" == "") = false)
    (hstart : pyStartsWith ((stateGet init "issue_url").getD "") "https://github.com/" = true)
    (hsub : hasSubstr ((stateGet init "issue_url").getD "") "/issues/" = true) :
    (run_async_impl init b).stagesRun.head? = some "fetch_issue" := by
  rcases b with ⟨f, a, i, p⟩
  cases f <;> cases a <;> cases i <;> cases p <;>
    simp [run_async_impl, hne, hstart, hsub] <;> split_ifs <;> simp

/-- Witness for C8 at the structurally malformed URL
`"https://github.com/x/issues/"` (no owner/repo segments, no issue number). -/
theorem url_validation_is_permissive_witness :
    (run_async_impl [("issue_url", "https://github.com/x/issues/")]
      ⟨.ok [], .ok [], .ok [], .ok []⟩).stagesRun.head? = some "fetch_issue" :=
  url_validation_is_permissive [("issue_url", "https://github.com/x/issues/")]
    ⟨.ok [], .ok [], .ok [], .ok []⟩ (by decide) (by decide) (by decide)

/-- C5: if stage 1 runs but session state then has no truthy `issue_details`,
the driver emits `success := false` with error `"No issue_details found"` and
every other result field null, and stages 2-4 are never invoked. -/
theorem missing_issue_details_short_circuit (init : State) (b : RunBehavior) (w1 : State)
    (hne : ((stateGet init "issue_url").getD "" == "") = false)
    (hstart : pyStartsWith ((stateGet init "issue_url").getD "") "https://github.com/" = true)
    (hsub : hasSubstr ((stateGet init "issue_url").getD "") "/issues/" = true)
    (hf : b.fetch = .ok w1)
    (hmiss : pyFalsy (stateGet (w1 ++ init) "issue_details") = true) :
    run_async_impl init b =
      ⟨["fetch_issue"],
       [{ success := false, error := some "No issue_details found",
          issue_details := none, analysis := none,
          implementation_summary := none, pull_request := none }]⟩ := by
  simp [run_async_impl, hne, hstart, hsub, hf, hmiss, noIssueDetailsResponse]

/-- Witness for C5: stage 1 completes without writing `issue_details`. -/
theorem missing_issue_details_short_circuit_witness :
    run_async_impl [("issue_url", "https://github.com/o/r/issues/7")]
      ⟨.ok [], .ok [], .ok [], .ok []⟩ =
      ⟨["fetch_issue"],
       [{ success := false, error := some "No issue_details found",
          issue_details := none, analysis := none,
          implementation_summary := none, pull_request := none }]⟩ :=
  missing_issue_details_short_circuit [("issue_url", "https://github.com/o/r/issues/7")]
    ⟨.ok [], .ok [], .ok [], .ok []⟩ [] (by decide) (by decide) (by decide) rfl (by decide)

/-- C1: on a fully successful run (all four stages run, and `issue_details`,
`analysis` and `pr_output` are truthy in session state) the emitted envelope
has `success := true`, `error := none`, the three state-derived fields read
from the accumulated session state (and present there), and the fixed
summary string as `implementation_summary`. -/
theorem full_success_envelope (init : State) (b : RunBehavior) (w1 w2 w3 w4 : State)
    (hne : ((stateGet init "issue_url").getD "" == "") = false)
    (hstart : pyStartsWith ((stateGet init "issue_url").getD "") "https://github.com/" = true)
    (hsub : hasSubstr ((stateGet init "issue_url").getD "") "/issues/" = true)
    (hf : b.fetch = .ok w1) (ha : b.analyze = .ok w2)
    (hi : b.implement = .ok w3) (hp : b.pr = .ok w4)
    (h1 : pyFalsy (stateGet (w1 ++ init) "issue_details") = false)
    (h2 : pyFalsy (stateGet (w2 ++ (w1 ++ init)) "analysis") = false)
    (h4 : pyFalsy (stateGet (w4 ++ (w3 ++ (w2 ++ (w1 ++ init)))) "pr_output") = false) :
    run_async_impl init b =
      ⟨["fetch_issue", "analyze_issue", "implement_fix", "create_pr"],
       [{ success := true, error := none,
          issue_details := stateGet (w4 ++ (w3 ++ (w2 ++ (w1 ++ init)))) "issue_details",
          analysis := stateGet (w4 ++ (w3 ++ (w2 ++ (w1 ++ init)))) "analysis",
          implementation_summary :=
            some "Successfully implemented code changes based on issue analysis",
          pull_request := stateGet (w4 ++ (w3 ++ (w2 ++ (w1 ++ init)))) "pr_output" }]⟩ ∧
    (stateGet (w4 ++ (w3 ++ (w2 ++ (w1 ++ init)))) "issue_details").isSome = true ∧
    (stateGet (w4 ++ (w3 ++ (w2 ++ (w1 ++ init)))) "analysis").isSome = true ∧
    (stateGet (w4 ++ (w3 ++ (w2 ++ (w1 ++ init)))) "pr_output").isSome = true := by
  refine ⟨?_, ?_, ?_, pyFalsy_false_isSome h4⟩
  · simp [run_async_impl, hne, hstart, hsub, hf, ha, hi, hp, h1, h2, h4, successResponse]
  · exact lookup_append_isSome w4 _ _ (lookup_append_isSome w3 _ _
      (lookup_append_isSome w2 _ _ (pyFalsy_false_isSome h1)))
  · exact lookup_append_isSome w4 _ _ (lookup_append_isSome w3 _ _
      (pyFalsy_false_isSome h2))

/-- Witness for C1: a concrete fully successful run. -/
theorem full_success_envelope_witness :
    run_async_impl [("issue_url", "https://github.com/o/r/issues/7")]
      ⟨.ok [("issue_details", "D")], .ok [("analysis", "A")], .ok [],
       .ok [("pr_output", "P")]⟩ =
      ⟨["fetch_issue", "analyze_issue", "implement_fix", "create_pr"],
       [{ success := true, error := none,
          issue_details := stateGet ([("pr_output", "P")] ++ ([] ++ ([("analysis", "A")] ++
            ([("issue_details", "D")] ++ [("issue_url", "https://github.com/o/r/issues/7")]))))
            "issue_details",
          analysis := stateGet ([("pr_output", "P")] ++ ([] ++ ([("analysis", "A")] ++
            ([("issue_details", "D")] ++ [("issue_url", "https://github.com/o/r/issues/7")]))))
            "analysis",
          implementation_summary :=
            some "Successfully implemented code changes based on issue analysis",
          pull_request := stateGet ([("pr_output", "P")] ++ ([] ++ ([("analysis", "A")] ++
            ([("issue_details", "D")] ++ [("issue_url", "https://github.com/o/r/issues/7")]))))
            "pr_output" }]⟩ ∧
    (stateGet ([("pr_output", "P")] ++ ([] ++ ([("analysis", "A")] ++
      ([("issue_details", "D")] ++ [("issue_url", "https://github.com/o/r/issues/7")]))))
      "issue_details").isSome = true ∧
    (stateGet ([("pr_output", "P")] ++ ([] ++ ([("analysis", "A")] ++
      ([("issue_details", "D")] ++ [("issue_url", "https://github.com/o/r/issues/7")]))))
      "analysis").isSome = true ∧
    (stateGet ([("pr_output", "P")] ++ ([] ++ ([("analysis", "A")] ++
      ([("issue_details", "D")] ++ [("issue_url", "https://github.com/o/r/issues/7")]))))
      "pr_output").isSome = true :=
  full_success_envelope [("issue_url", "https://github.com/o/r/issues/7")]
    ⟨.ok [("issue_details", "D")], .ok [("analysis", "A")], .ok [], .ok [("pr_output", "P")]⟩
    [("issue_details", "D")] [("analysis", "A")] [] [("pr_output", "P")]
    (by decide) (by decide) (by decide) rfl rfl rfl rfl
    (by decide) (by decide) (by decide)

/-- C2: for each checked stage (1, 2 and 4: the stages with a named output
key), when the stage runs but its key is falsy in session state, the driver
emits the corresponding `success := false` envelope with a fixed error
string and whatever partial state had been collected, and no later stage
runs (the list of invoked stages ends at the failing one). -/
theorem stage_missing_key_short_circuits :
    (∀ (init : State) (b : RunBehavior) (w1 : State),
      ((stateGet init "issue_url").getD "" == "") = false →
      pyStartsWith ((stateGet init "issue_url").getD "") "https://github.com/" = true →
      hasSubstr ((stateGet init "issue_url").getD "") "/issues/" = true →
      b.fetch = .ok w1 →
      pyFalsy (stateGet (w1 ++ init) "issue_details") = true →
      run_async_impl init b =
        ⟨["fetch_issue"],
         [{ success := false, error := some "No issue_details found",
            issue_details := none, analysis := none,
            implementation_summary := none, pull_request := none }]⟩) ∧
    (∀ (init : State) (b : RunBehavior) (w1 w2 : State),
      ((stateGet init "issue_url").getD "" == "") = false →
      pyStartsWith ((stateGet init "issue_url").getD "") "https://github.com/" = true →
      hasSubstr ((stateGet init "issue_url").getD "") "/issues/" = true →
      b.fetch = .ok w1 →
      pyFalsy (stateGet (w1 ++ init) "issue_details") = false →
      b.analyze = .ok w2 →
      pyFalsy (stateGet (w2 ++ (w1 ++ init)) "analysis") = true →
      run_async_impl init b =
        ⟨["fetch_issue", "analyze_issue"],
         [{ success := false, error := some "No analysis found",
            issue_details := stateGet (w2 ++ (w1 ++ init)) "issue_details",
            analysis := none,
            implementation_summary := none, pull_request := none }]⟩) ∧
    (∀ (init : State) (b : RunBehavior) (w1 w2 w3 w4 : State),
      ((stateGet init "issue_url").getD "" == "") = false →
      pyStartsWith ((stateGet init "issue_url").getD "") "https://github.com/" = true →
      hasSubstr ((stateGet init "issue_url").getD "") "/issues/" = true →
      b.fetch = .ok w1 →
      pyFalsy (stateGet (w1 ++ init) "issue_details") = false →
      b.analyze = .ok w2 →
      pyFalsy (stateGet (w2 ++ (w1 ++ init)) "analysis") = false →
      b.implement = .ok w3 →
      b.pr = .ok w4 →
      pyFalsy (stateGet (w4 ++ (w3 ++ (w2 ++ (w1 ++ init)))) "pr_output") = true →
      run_async_impl init b =
        ⟨["fetch_issue", "analyze_issue", "implement_fix", "create_pr"],
         [{ success := false, error := some "PR creation failed",
            issue_details := stateGet (w4 ++ (w3 ++ (w2 ++ (w1 ++ init)))) "issue_details",
            analysis := stateGet (w4 ++ (w3 ++ (w2 ++ (w1 ++ init)))) "analysis",
            implementation_summary := some "Changes were implemented but PR creation failed",
            pull_request := none }]⟩) := by
  refine ⟨?_, ?_, ?_⟩
  · intro init b w1 hne hstart hsub hf hmiss
    simp [run_async_impl, hne, hstart, hsub, hf, hmiss, noIssueDetailsResponse]
  · intro init b w1 w2 hne hstart hsub hf h1 ha hmiss
    simp [run_async_impl, hne, hstart, hsub, hf, h1, ha, hmiss, noAnalysisResponse]
  · intro init b w1 w2 w3 w4 hne hstart hsub hf h1 ha h2 hi hp hmiss
    simp [run_async_impl, hne, hstart, hsub, hf, h1, ha, h2, hi, hp, hmiss, prFailedResponse]

/-- Witness for C2: concrete runs failing at stage 1, stage 2 and stage 4. -/
theorem stage_missing_key_short_circuits_witness :
    run_async_impl [("issue_url", "https://github.com/o/r/issues/1")]
      ⟨.ok [], .ok [], .ok [], .ok []⟩ =
      ⟨["fetch_issue"],
       [{ success := false, error := some "No issue_details found",
          issue_details := none, analysis := none,
          implementation_summary := none, pull_request := none }]⟩ ∧
    run_async_impl [("issue_url", "https://github.com/o/r/issues/1")]
      ⟨.ok [("issue_details", "D")], .ok [], .ok [], .ok []⟩ =
      ⟨["fetch_issue", "analyze_issue"],
       [{ success := false, error := some "No analysis found",
          issue_details := stateGet ([] ++ ([("issue_details", "D")] ++
            [("issue_url", "https://github.com/o/r/issues/1")])) "issue_details",
          analysis := none,
          implementation_summary := none, pull_request := none }]⟩ ∧
    run_async_impl [("issue_url", "https://github.com/o/r/issues/1")]
      ⟨.ok [("issue_details", "D")], .ok [("analysis", "A")], .ok [], .ok []⟩ =
      ⟨["fetch_issue", "analyze_issue", "implement_fix", "create_pr"],
       [{ success := false, error := some "PR creation failed",
          issue_details := stateGet ([] ++ ([] ++ ([("analysis", "A")] ++
            ([("issue_details", "D")] ++
              [("issue_url", "https://github.com/o/r/issues/1")])))) "issue_details",
          analysis := stateGet ([] ++ ([] ++ ([("analysis", "A")] ++
            ([("issue_details", "D")] ++
              [("issue_url", "https://github.com/o/r/issues/1")])))) "analysis",
          implementation_summary := some "Changes were implemented but PR creation failed",
          pull_request := none }]⟩ :=
  ⟨stage_missing_key_short_circuits.1 [("issue_url", "https://github.com/o/r/issues/1")]
      ⟨.ok [], .ok [], .ok [], .ok []⟩ []
      (by decide) (by decide) (by decide) rfl (by decide),
   stage_missing_key_short_circuits.2.1 [("issue_url", "https://github.com/o/r/issues/1")]
      ⟨.ok [("issue_details", "D")], .ok [], .ok [], .ok []⟩ [("issue_details", "D")] []
      (by decide) (by decide) (by decide) rfl (by decide) rfl (by decide),
   stage_missing_key_short_circuits.2.2 [("issue_url", "https://github.com/o/r/issues/1")]
      ⟨.ok [("issue_details", "D")], .ok [("analysis", "A")], .ok [], .ok []⟩
      [("issue_details", "D")] [("analysis", "A")] [] []
      (by decide) (by decide) (by decide) rfl (by decide) rfl (by decide) rfl rfl (by decide)⟩

/-- C6: if stages 1-3 succeed (truthy `issue_details` and `analysis`) but
stage 4 leaves `pr_output` falsy, the envelope reports `success := false`
with the prior `issue_details` and `analysis` read from state, the fixed
implementation-summary string, and `pull_request := none`. -/
theorem pr_missing_envelope (init : State) (b : RunBehavior) (w1 w2 w3 w4 : State)
    (hne : ((stateGet init "issue_url").getD "" == "") = false)
    (hstart : pyStartsWith ((stateGet init "issue_url").getD "") "https://github.com/" = true)
    (hsub : hasSubstr ((stateGet init "issue_url").getD "") "/issues/" = true)
    (hf : b.fetch = .ok w1)
    (h1 : pyFalsy (stateGet (w1 ++ init) "issue_details") = false)
    (ha : b.analyze = .ok w2)
    (h2 : pyFalsy (stateGet (w2 ++ (w1 ++ init)) "analysis") = false)
    (hi : b.implement = .ok w3) (hp : b.pr = .ok w4)
    (hmiss : pyFalsy (stateGet (w4 ++ (w3 ++ (w2 ++ (w1 ++ init)))) "pr_output") = true) :
    (run_async_impl init b).emitted =
      [{ success := false, error := some "PR creation failed",
         issue_details := stateGet (w4 ++ (w3 ++ (w2 ++ (w1 ++ init)))) "issue_details",
         analysis := stateGet (w4 ++ (w3 ++ (w2 ++ (w1 ++ init)))) "analysis",
         implementation_summary := some "Changes were implemented but PR creation failed",
         pull_request := none }] := by
  simp [run_async_impl, hne, hstart, hsub, hf, h1, ha, h2, hi, hp, hmiss, prFailedResponse]

/-- Witness for C6: a concrete run in which stage 4 writes nothing. -/
theorem pr_missing_envelope_witness :
    (run_async_impl [("issue_url", "https://github.com/o/r/issues/2")]
      ⟨.ok [("issue_details", "D")], .ok [("analysis", "A")], .ok [], .ok []⟩).emitted =
      [{ success := false, error := some "PR creation failed",
         issue_details := stateGet ([] ++ ([] ++ ([("analysis", "A")] ++
           ([("issue_details", "D")] ++
             [("issue_url", "https://github.com/o/r/issues/2")])))) "issue_details",
         analysis := stateGet ([] ++ ([] ++ ([("analysis", "A")] ++
           ([("issue_details", "D")] ++
             [("issue_url", "https://github.com/o/r/issues/2")])))) "analysis",
         implementation_summary := some "Changes were implemented but PR creation failed",
         pull_request := none }] :=
  pr_missing_envelope [("issue_url", "https://github.com/o/r/issues/2")]
    ⟨.ok [("issue_details", "D")], .ok [("analysis", "A")], .ok [], .ok []⟩
    [("issue_details", "D")] [("analysis", "A")] [] []
    (by decide) (by decide) (by decide) rfl (by decide) rfl (by decide) rfl rfl (by decide)

/-- C9: the missing-key checks after stages 1, 2 and 4 use Python falsiness,
so a stage that writes the empty string under its output key short-circuits
with the same `success := false` envelope as if the key had never been
written. -/
theorem empty_string_key_treated_as_absent :
    (∀ (init : State) (b : RunBehavior) (w1 : State),
      ((stateGet init "issue_url").getD "" == "") = false →
      pyStartsWith ((stateGet init "issue_url").getD "") "https://github.com/" = true →
      hasSubstr ((stateGet init "issue_url").getD "") "/issues/" = true →
      b.fetch = .ok w1 →
      stateGet (w1 ++ init) "issue_details" = some "" →
      run_async_impl init b =
        ⟨["fetch_issue"],
         [{ success := false, error := some "No issue_details found",
            issue_details := none, analysis := none,
            implementation_summary := none, pull_request := none }]⟩) ∧
    (∀ (init : State) (b : RunBehavior) (w1 w2 : State),
      ((stateGet init "issue_url").getD "" == "") = false →
      pyStartsWith ((stateGet init "issue_url").getD "") "https://github.com/" = true →
      hasSubstr ((stateGet init "issue_url").getD "") "/issues/" = true →
      b.fetch = .ok w1 →
      pyFalsy (stateGet (w1 ++ init) "issue_details") = false →
      b.analyze = .ok w2 →
      stateGet (w2 ++ (w1 ++ init)) "analysis" = some "" →
      run_async_impl init b =
        ⟨["fetch_issue", "analyze_issue"],
         [{ success := false, error := some "No analysis found",
            issue_details := stateGet (w2 ++ (w1 ++ init)) "issue_details",
            analysis := none,
            implementation_summary := none, pull_request := none }]⟩) ∧
    (∀ (init : State) (b : RunBehavior) (w1 w2 w3 w4 : State),
      ((stateGet init "issue_url").getD "" == "") = false →
      pyStartsWith ((stateGet init "issue_url").getD "") "https://github.com/" = true →
      hasSubstr ((stateGet init "issue_url").getD "") "/issues/" = true →
      b.fetch = .ok w1 →
      pyFalsy (stateGet (w1 ++ init) "issue_details") = false →
      b.analyze = .ok w2 →
      pyFalsy (stateGet (w2 ++ (w1 ++ init)) "analysis") = false →
      b.implement = .ok w3 →
      b.pr = .ok w4 →
      stateGet (w4 ++ (w3 ++ (w2 ++ (w1 ++ init)))) "pr_output" = some "" →
      run_async_impl init b =
        ⟨["fetch_issue", "analyze_issue", "implement_fix", "create_pr"],
         [{ success := false, error := some "PR creation failed",
            issue_details := stateGet (w4 ++ (w3 ++ (w2 ++ (w1 ++ init)))) "issue_details",
            analysis := stateGet (w4 ++ (w3 ++ (w2 ++ (w1 ++ init)))) "analysis",
            implementation_summary := some "Changes were implemented but PR creation failed",
            pull_request := none }]⟩) := by
  refine ⟨?_, ?_, ?_⟩
  · intro init b w1 hne hstart hsub hf hempty
    have hmiss : pyFalsy (stateGet (w1 ++ init) "issue_details") = true := by
      simp [pyFalsy, hempty]
    simp [run_async_impl, hne, hstart, hsub, hf, hmiss, noIssueDetailsResponse]
  · intro init b w1 w2 hne hstart hsub hf h1 ha hempty
    have hmiss : pyFalsy (stateGet (w2 ++ (w1 ++ init)) "analysis") = true := by
      simp [pyFalsy, hempty]
    simp [run_async_impl, hne, hstart, hsub, hf, h1, ha, hmiss, noAnalysisResponse]
  · intro init b w1 w2 w3 w4 hne hstart hsub hf h1 ha h2 hi hp hempty
    have hmiss : pyFalsy (stateGet (w4 ++ (w3 ++ (w2 ++ (w1 ++ init)))) "pr_output") = true := by
      simp [pyFalsy, hempty]
    simp [run_async_impl, hne, hstart, hsub, hf, h1, ha, h2, hi, hp, hmiss, prFailedResponse]

/-- Witness for C9: stages writing `""` under their output keys. -/
theorem empty_string_key_treated_as_absent_witness :
    run_async_impl [("issue_url", "https://github.com/o/r/issues/3")]
      ⟨.ok [("issue_details", "")], .ok [], .ok [], .ok []⟩ =
      ⟨["fetch_issue"],
       [{ success := false, error := some "No issue_details found",
          issue_details := none, analysis := none,
          implementation_summary := none, pull_request := none }]⟩ ∧
    run_async_impl [("issue_url", "https://github.com/o/r/issues/3")]
      ⟨.ok [("issue_details", "D")], .ok [("analysis", "")], .ok [], .ok []⟩ =
      ⟨["fetch_issue", "analyze_issue"],
       [{ success := false, error := some "No analysis found",
          issue_details := stateGet ([("analysis", "")] ++ ([("issue_details", "D")] ++
            [("issue_url", "https://github.com/o/r/issues/3")])) "issue_details",
          analysis := none,
          implementation_summary := none, pull_request := none }]⟩ ∧
    run_async_impl [("issue_url", "https://github.com/o/r/issues/3")]
      ⟨.ok [("issue_details", "D")], .ok [("analysis", "A")], .ok [], .ok [("pr_output", "")]⟩ =
      ⟨["fetch_issue", "analyze_issue", "implement_fix", "create_pr"],
       [{ success := false, error := some "PR creation failed",
          issue_details := stateGet ([("pr_output", "")] ++ ([] ++ ([("analysis", "A")] ++
            ([("issue_details", "D")] ++
              [("issue_url", "https://github.com/o/r/issues/3")])))) "issue_details",
          analysis := stateGet ([("pr_output", "")] ++ ([] ++ ([("analysis", "A")] ++
            ([("issue_details", "D")] ++
              [("issue_url", "https://github.com/o/r/issues/3")])))) "analysis",
          implementation_summary := some "Changes were implemented but PR creation failed",
          pull_request := none }]⟩ :=
  ⟨empty_string_key_treated_as_absent.1 [("issue_url", "https://github.com/o/r/issues/3")]
      ⟨.ok [("issue_details", "")], .ok [], .ok [], .ok []⟩ [("issue_details", "")]
      (by decide) (by decide) (by decide) rfl (by decide),
   empty_string_key_treated_as_absent.2.1 [("issue_url", "https://github.com/o/r/issues/3")]
      ⟨.ok [("issue_details", "D")], .ok [("analysis", "")], .ok [], .ok []⟩
      [("issue_details", "D")] [("analysis", "")]
      (by decide) (by decide) (by decide) rfl (by decide) rfl (by decide),
   empty_string_key_treated_as_absent.2.2 [("issue_url", "https://github.com/o/r/issues/3")]
      ⟨.ok [("issue_details", "D")], .ok [("analysis", "A")], .ok [], .ok [("pr_output", "")]⟩
      [("issue_details", "D")] [("analysis", "A")] [] [("pr_output", "")]
      (by decide) (by decide) (by decide) rfl (by decide) rfl (by decide) rfl rfl (by decide)⟩

/-- C3: an exception raised during any of the four stages is caught and
produces a single envelope with `success := false`, error exactly
`"Unexpected error: "` followed by the exception message, and the four
result fields read from whatever session state exists at that point. -/
theorem exception_caught_envelope :
    (∀ (init : State) (b : RunBehavior) (w : State) (msg : String),
      ((stateGet init "issue_url").getD "" == "") = false →
      pyStartsWith ((stateGet init "issue_url").getD "") "https://github.com/" = true →
      hasSubstr ((stateGet init "issue_url").getD "") "/issues/" = true →
      b.fetch = .exn w msg →
      (run_async_impl init b).emitted =
        [{ success := false, error := some ("Unexpected error: " ++ msg),
           issue_details := stateGet (w ++ init) "issue_details",
           analysis := stateGet (w ++ init) "analysis",
           implementation_summary := stateGet (w ++ init) "implementation_summary",
           pull_request := stateGet (w ++ init) "pr_output" }]) ∧
    (∀ (init : State) (b : RunBehavior) (w1 w : State) (msg : String),
      ((stateGet init "issue_url").getD "" == "") = false →
      pyStartsWith ((stateGet init "issue_url").getD "") "https://github.com/" = true →
      hasSubstr ((stateGet init "issue_url").getD "") "/issues/" = true →
      b.fetch = .ok w1 →
      pyFalsy (stateGet (w1 ++ init) "issue_details") = false →
      b.analyze = .exn w msg →
      (run_async_impl init b).emitted =
        [{ success := false, error := some ("Unexpected error: " ++ msg),
           issue_details := stateGet (w ++ (w1 ++ init)) "issue_details",
           analysis := stateGet (w ++ (w1 ++ init)) "analysis",
           implementation_summary := stateGet (w ++ (w1 ++ init)) "implementation_summary",
           pull_request := stateGet (w ++ (w1 ++ init)) "pr_output" }]) ∧
    (∀ (init : State) (b : RunBehavior) (w1 w2 w : State) (msg : String),
      ((stateGet init "issue_url").getD "" == "") = false →
      pyStartsWith ((stateGet init "issue_url").getD "") "https://github.com/" = true →
      hasSubstr ((stateGet init "issue_url").getD "") "/issues/" = true →
      b.fetch = .ok w1 →
      pyFalsy (stateGet (w1 ++ init) "issue_details") = false →
      b.analyze = .ok w2 →
      pyFalsy (stateGet (w2 ++ (w1 ++ init)) "analysis") = false →
      b.implement = .exn w msg →
      (run_async_impl init b).emitted =
        [{ success := false, error := some ("Unexpected error: " ++ msg),
           issue_details := stateGet (w ++ (w2 ++ (w1 ++ init))) "issue_details",
           analysis := stateGet (w ++ (w2 ++ (w1 ++ init))) "analysis",
           implementation_summary := stateGet (w ++ (w2 ++ (w1 ++ init))) "implementation_summary",
           pull_request := stateGet (w ++ (w2 ++ (w1 ++ init))) "pr_output" }]) ∧
    (∀ (init : State) (b : RunBehavior) (w1 w2 w3 w : State) (msg : String),
      ((stateGet init "issue_url").getD "" == "") = false →
      pyStartsWith ((stateGet init "issue_url").getD "") "https://github.com/" = true →
      hasSubstr ((stateGet init "issue_url").getD "") "/issues/" = true →
      b.fetch = .ok w1 →
      pyFalsy (stateGet (w1 ++ init) "issue_details") = false →
      b.analyze = .ok w2 →
      pyFalsy (stateGet (w2 ++ (w1 ++ init)) "analysis") = false →
      b.implement = .ok w3 →
      b.pr = .exn w msg →
      (run_async_impl init b).emitted =
        [{ success := false, error := some ("Unexpected error: " ++ msg),
           issue_details := stateGet (w ++ (w3 ++ (w2 ++ (w1 ++ init)))) "issue_details",
           analysis := stateGet (w ++ (w3 ++ (w2 ++ (w1 ++ init)))) "analysis",
           implementation_summary :=
             stateGet (w ++ (w3 ++ (w2 ++ (w1 ++ init)))) "implementation_summary",
           pull_request := stateGet (w ++ (w3 ++ (w2 ++ (w1 ++ init)))) "pr_output" }]) := by
  refine ⟨?_, ?_, ?_, ?_⟩
  · intro init b w msg hne hstart hsub hf
    simp [run_async_impl, hne, hstart, hsub, hf, unexpectedErrorResponse]
  · intro init b w1 w msg hne hstart hsub hf h1 ha
    simp [run_async_impl, hne, hstart, hsub, hf, h1, ha, unexpectedErrorResponse]
  · intro init b w1 w2 w msg hne hstart hsub hf h1 ha h2 hi
    simp [run_async_impl, hne, hstart, hsub, hf, h1, ha, h2, hi, unexpectedErrorResponse]
  · intro init b w1 w2 w3 w msg hne hstart hsub hf h1 ha h2 hi hp
    simp [run_async_impl, hne, hstart, hsub, hf, h1, ha, h2, hi, hp, unexpectedErrorResponse]

/-- Witness for C3: a concrete exception in each of the four stages. -/
theorem exception_caught_envelope_witness :
    (run_async_impl [("issue_url", "https://github.com/o/r/issues/4")]
      ⟨.exn [] "boom1", .ok [], .ok [], .ok []⟩).emitted =
      [{ success := false, error := some ("Unexpected error: " ++ "boom1"),
         issue_details := stateGet ([] ++ [("issue_url", "https://github.com/o/r/issues/4")])
           "issue_details",
         analysis := stateGet ([] ++ [("issue_url", "https://github.com/o/r/issues/4")])
           "analysis",
         implementation_summary :=
           stateGet ([] ++ [("issue_url", "https://github.com/o/r/issues/4")])
             "implementation_summary",
         pull_request := stateGet ([] ++ [("issue_url", "https://github.com/o/r/issues/4")])
           "pr_output" }] ∧
    (run_async_impl [("issue_url", "https://github.com/o/r/issues/4")]
      ⟨.ok [("issue_details", "D")], .exn [] "boom2", .ok [], .ok []⟩).emitted =
      [{ success := false, error := some ("Unexpected error: " ++ "boom2"),
         issue_details := stateGet ([] ++ ([("issue_details", "D")] ++
           [("issue_url", "https://github.com/o/r/issues/4")])) "issue_details",
         analysis := stateGet ([] ++ ([("issue_details", "D")] ++
           [("issue_url", "https://github.com/o/r/issues/4")])) "analysis",
         implementation_summary := stateGet ([] ++ ([("issue_details", "D")] ++
           [("issue_url", "https://github.com/o/r/issues/4")])) "implementation_summary",
         pull_request := stateGet ([] ++ ([("issue_details", "D")] ++
           [("issue_url", "https://github.com/o/r/issues/4")])) "pr_output" }] ∧
    (run_async_impl [("issue_url", "https://github.com/o/r/issues/4")]
      ⟨.ok [("issue_details", "D")], .ok [("analysis", "A")], .exn [] "boom3", .ok []⟩).emitted =
      [{ success := false, error := some ("Unexpected error: " ++ "boom3"),
         issue_details := stateGet ([] ++ ([("analysis", "A")] ++ ([("issue_details", "D")] ++
           [("issue_url", "https://github.com/o/r/issues/4")]))) "issue_details",
         analysis := stateGet ([] ++ ([("analysis", "A")] ++ ([("issue_details", "D")] ++
           [("issue_url", "https://github.com/o/r/issues/4")]))) "analysis",
         implementation_summary := stateGet ([] ++ ([("analysis", "A")] ++
           ([("issue_details", "D")] ++
             [("issue_url", "https://github.com/o/r/issues/4")]))) "implementation_summary",
         pull_request := stateGet ([] ++ ([("analysis", "A")] ++ ([("issue_details", "D")] ++
           [("issue_url", "https://github.com/o/r/issues/4")]))) "pr_output" }] ∧
    (run_async_impl [("issue_url", "https://github.com/o/r/issues/4")]
      ⟨.ok [("issue_details", "D")], .ok [("analysis", "A")], .ok [],
       .exn [] "boom4"⟩).emitted =
      [{ success := false, error := some ("Unexpected error: " ++ "boom4"),
         issue_details := stateGet ([] ++ ([] ++ ([("analysis", "A")] ++
           ([("issue_details", "D")] ++
             [("issue_url", "https://github.com/o/r/issues/4")])))) "issue_details",
         analysis := stateGet ([] ++ ([] ++ ([("analysis", "A")] ++
           ([("issue_details", "D")] ++
             [("issue_url", "https://github.com/o/r/issues/4")])))) "analysis",
         implementation_summary := stateGet ([] ++ ([] ++ ([("analysis", "A")] ++
           ([("issue_details", "D")] ++
             [("issue_url", "https://github.com/o/r/issues/4")])))) "implementation_summary",
         pull_request := stateGet ([] ++ ([] ++ ([("analysis", "A")] ++
           ([("issue_details", "D")] ++
             [("issue_url", "https://github.com/o/r/issues/4")])))) "pr_output" }] :=
  ⟨exception_caught_envelope.1 [("issue_url", "https://github.com/o/r/issues/4")]
      ⟨.exn [] "boom1", .ok [], .ok [], .ok []⟩ [] "boom1"
      (by decide) (by decide) (by decide) rfl,
   exception_caught_envelope.2.1 [("issue_url", "https://github.com/o/r/issues/4")]
      ⟨.ok [("issue_details", "D")], .exn [] "boom2", .ok [], .ok []⟩
      [("issue_details", "D")] [] "boom2"
      (by decide) (by decide) (by decide) rfl (by decide) rfl,
   exception_caught_envelope.2.2.1 [("issue_url", "https://github.com/o/r/issues/4")]
      ⟨.ok [("issue_details", "D")], .ok [("analysis", "A")], .exn [] "boom3", .ok []⟩
      [("issue_details", "D")] [("analysis", "A")] [] "boom3"
      (by decide) (by decide) (by decide) rfl (by decide) rfl (by decide) rfl,
   exception_caught_envelope.2.2.2 [("issue_url", "https://github.com/o/r/issues/4")]
      ⟨.ok [("issue_details", "D")], .ok [("analysis", "A")], .ok [], .exn [] "boom4"⟩
      [("issue_details", "D")] [("analysis", "A")] [] [] "boom4"
      (by decide) (by decide) (by decide) rfl (by decide) rfl (by decide) rfl rfl⟩

/-- Splitting a character list at the first `'='`: `takeWhile` returns the
part before it and `drop` past it returns the rest. -/
theorem splitAux (r : List Char) : ∀ (l : List Char), (l.all (fun c => c != '=')) = true →
    List.takeWhile (fun c => c != '=') (l ++ '=' :: r) = l ∧
    List.drop (l.length + 1) (l ++ '=' :: r) = r := by
  intro l hl
  induction l with
  | nil => constructor <;> simp [List.takeWhile]
  | cons c l ih =>
    simp only [List.all_cons, Bool.and_eq_true] at hl
    obtain ⟨hc, hrest⟩ := hl
    obtain ⟨ht, hd⟩ := ih hrest
    constructor
    · simp [List.takeWhile_cons, hc, ht]
    · simp [hd]

/-- Looking up a key right at the head of an association list. -/
theorem lookup_cons_hit (k v : String) (rest : Env) :
    List.lookup k ((k, v) :: rest) = some v := by
  simp [List.lookup]

/-- Looking up a key past a head with a different key. -/
theorem lookup_cons_skip (k a w : String) (rest : Env) (h : (k == a) = false) :
    List.lookup k ((a, w) :: rest) = List.lookup k rest := by
  simp [List.lookup, h]

/-- After replacing the binding for `k`, lookup finds the new value. -/
theorem lookup_replace (k v : String) : ∀ (l : Env), l.any (fun p => p.1 == k) = true →
    (l.map (fun p => if p.1 == k then (p.1, v) else p)).lookup k = some v := by
  intro l hl
  induction l with
  | nil => simp at hl
  | cons p l ih =>
    rcases p with ⟨a, w⟩
    simp only [List.map_cons]
    by_cases hak : a = k
    · rw [if_pos (by simp [hak] : (((a, w) : String × String).1 == k) = true)]
      subst hak
      exact lookup_cons_hit a v _
    · rw [if_neg (by simp [hak] : ¬(((a, w) : String × String).1 == k) = true)]
      have h2 : (k == a) = false := by
        simpa using Ne.symm hak
      have hl' : (l.any fun p => p.1 == k) = true := by
        simpa [List.any_cons, (by simp [hak] : ((a : String) == k) = false)] using hl
      rw [lookup_cons_skip k a w _ h2]
      exact ih hl'

/-- Appending a fresh binding at the end: lookup finds it when no earlier
binding for the key exists. -/
theorem lookup_append_fresh (k v : String) : ∀ (l : Env), l.any (fun p => p.1 == k) = false →
    (l ++ [(k, v)]).lookup k = some v := by
  intro l hl
  induction l with
  | nil => exact lookup_cons_hit k v []
  | cons p l ih =>
    rcases p with ⟨a, w⟩
    simp only [List.any_cons, Bool.or_eq_false_iff] at hl
    obtain ⟨h1, h2⟩ := hl
    have hne : a ≠ k := by simpa using h1
    have hka : (k == a) = false := by simpa using Ne.symm hne
    rw [List.cons_append, lookup_cons_skip k a w _ hka]
    exact ih h2

/-- Assignment `os.environ[k] = v` makes `k` map to `v`, whether or not `k`
was previously bound. -/
theorem envGet_envSet (env : Env) (k v : String) : envGet (envSet env k v) k = some v := by
  unfold envGet envSet
  cases hmem : env.any (fun p => p.1 == k) with
  | true =>
    rw [if_pos (rfl : true = true)]
    exact lookup_replace k v env hmem
  | false =>
    rw [if_neg (by simp : ¬false = true)]
    exact lookup_append_fresh k v env hmem

/-- C10: the `.env` loader skips blank lines, `"#"`-comment lines and lines
with no `"="`; every other line it splits on the first `"="` only (values may
contain `"="`) and assigns unconditionally into the process environment,
overwriting any existing binding of the same name. -/
theorem env_loader_line_semantics :
    (∀ (env : Env) (raw : String), pyStrip raw = "" → processEnvLine env raw = env) ∧
    (∀ (env : Env) (raw : String), pyStartsWith (pyStrip raw) "#" = true →
      processEnvLine env raw = env) ∧
    (∀ (env : Env) (raw : String), hasSubstr (pyStrip raw) "=" = false →
      processEnvLine env raw = env) ∧
    (∀ k v : String, k.toList.all (fun c => c != '=') = true →
      splitFirstEq (k ++ "=" ++ v) = (k, v)) ∧
    (∀ (env : Env) (raw : String),
      (pyStrip raw == "") = false →
      pyStartsWith (pyStrip raw) "#" = false →
      hasSubstr (pyStrip raw) "=" = true →
      processEnvLine env raw =
        envSet env (splitFirstEq (pyStrip raw)).1 (splitFirstEq (pyStrip raw)).2) ∧
    (∀ (env : Env) (k v : String), envGet (envSet env k v) k = some v) ∧
    (∀ (env : Env) (raw : String) (rest : List String),
      loadEnvFile env (raw :: rest) = loadEnvFile (processEnvLine env raw) rest) := by
  refine ⟨?_, ?_, ?_, ?_, ?_, envGet_envSet, ?_⟩
  · intro env raw h
    simp [processEnvLine, h]
  · intro env raw h
    simp [processEnvLine, h]
  · intro env raw h
    simp [processEnvLine, h]
  · intro k v hk
    have hdata : (k ++ "=" ++ v).toList = k.toList ++ '=' :: v.toList := by
      simp [String.toList, String.data_append]
    obtain ⟨ht, hd⟩ := splitAux v.toList k.toList hk
    simp only [splitFirstEq, hdata, ht, hd]
    rfl
  · intro env raw h1 h2 h3
    simp [processEnvLine, h1, h2, h3]
  · intro env raw rest
    rfl

/-- Witness for C10: concrete skipped lines, a split with `"="` in the value,
and an overwriting assignment. -/
theorem env_loader_line_semantics_witness :
    processEnvLine [("A", "1")] "   " = [("A", "1")] ∧
    processEnvLine [("A", "1")] " # comment" = [("A", "1")] ∧
    processEnvLine [("A", "1")] "KEY" = [("A", "1")] ∧
    splitFirstEq ("KEY" ++ "=" ++ "a=b") = ("KEY", "a=b") ∧
    processEnvLine [("A", "1")] " KEY=a=b " =
      envSet [("A", "1")] (splitFirstEq (pyStrip " KEY=a=b ")).1
        (splitFirstEq (pyStrip " KEY=a=b ")).2 ∧
    envGet (envSet [("KEY", "old")] "KEY" "new") "KEY" = some "new" ∧
    loadEnvFile [] ["A=1", "B=2"] = loadEnvFile (processEnvLine [] "A=1") ["B=2"] :=
  ⟨env_loader_line_semantics.1 [("A", "1")] "   " (by decide),
   env_loader_line_semantics.2.1 [("A", "1")] " # comment" (by decide),
   env_loader_line_semantics.2.2.1 [("A", "1")] "KEY" (by decide),
   env_loader_line_semantics.2.2.2.1 "KEY" "a=b" (by decide),
   env_loader_line_semantics.2.2.2.2.1 [("A", "1")] " KEY=a=b "
     (by decide) (by decide) (by decide),
   env_loader_line_semantics.2.2.2.2.2.1 [("KEY", "old")] "KEY" "new",
   env_loader_line_semantics.2.2.2.2.2.2 [] "A=1" ["B=2"]⟩

end ResolveIssue
